import Mathlib

set_option maxRecDepth 40000
set_option maxHeartbeats 4000000

attribute [local semireducible] Rat.ofScientific Rat.add Rat.mul Rat.inv Rat.sub

/-!
Verification development for the HEFT scheduler in
`heft-workflows/heft_scheduler.py`.

The Python module is embedded shallowly:

* Python `float` arithmetic is modelled by exact rationals (`ℚ`);
* Python dictionaries are modelled by association lists together with
  `lookupA` (first binding wins) and `updateAssoc` (replace first binding,
  append if absent), which coincides with `dict` behaviour because the
  lists built here never hold duplicate keys;
* operations that can raise a `KeyError` in Python return `Option`;
* the recursion of `compute_upward_rank` is bounded by explicit fuel;
  exhausting the fuel (`none`) models Python recursion that never reaches
  a base case (a `RecursionError` on a cyclic graph).

Definitions keep the Python names where possible.
-/

namespace Heft

/-- Association-list lookup: the first binding for the key wins. -/
def lookupA {α β : Type} [DecidableEq α] : List (α × β) → α → Option β
  | [], _ => none
  | p :: t, k => if p.1 = k then some p.2 else lookupA t k

/-- Association-list update: replace the first binding for the key, or
append a new binding when the key is absent (Python `d[k] = v`). -/
def updateAssoc {α β : Type} [DecidableEq α] : List (α × β) → α → β → List (α × β)
  | [], k, v => [(k, v)]
  | p :: t, k, v => if p.1 = k then (k, v) :: t else p :: updateAssoc t k v

/-- Map an `Option`-valued function over a list, failing when any element
fails (the embedding of a Python loop whose body may raise). -/
def mapO {α β : Type} (f : α → Option β) : List α → Option (List β)
  | [] => some []
  | a :: t =>
    match f a with
    | none => none
    | some b => (mapO f t).map (b :: ·)

/-- One node of the fixed cluster configuration (`NODES` values). -/
structure NodeInfo where
  zone : String
  type : String
  capacity : ℚ
deriving DecidableEq

/-- The module-level `NODES` table, in declaration order. -/
def NODES : List (String × NodeInfo) :=
  [("master-m001", ⟨"R1", "master", 0.8⟩),
   ("master-m002", ⟨"R2", "master", 0.8⟩),
   ("master-m003", ⟨"R3", "master", 0.8⟩),
   ("worker-w001", ⟨"R1", "worker", 1.0⟩),
   ("worker-w002", ⟨"R1", "worker", 1.0⟩),
   ("worker-w003", ⟨"R2", "worker", 1.0⟩),
   ("worker-w004", ⟨"R2", "worker", 1.0⟩),
   ("worker-w005", ⟨"R3", "worker", 1.0⟩),
   ("worker-w006", ⟨"R3", "worker", 1.0⟩)]

/-- Node identifiers in `NODES` declaration order (Python iterates a dict
in insertion order). -/
def nodeIds : List String := NODES.map (·.1)

/-- The module-level `COMM_COSTS` table: zone pair → seconds. -/
def COMM_COSTS : List ((String × String) × ℚ) :=
  [(("R1", "R1"), 0.1), (("R2", "R2"), 0.1), (("R3", "R3"), 0.1),
   (("R1", "R2"), 1.5), (("R2", "R1"), 1.5),
   (("R1", "R3"), 2.0), (("R3", "R1"), 2.0),
   (("R2", "R3"), 1.5), (("R3", "R2"), 1.5)]

/-- An execution-cost table: task type → (node class → cost). -/
abbrev ExecCosts : Type := List (String × List (String × ℚ))

/-- A communication-cost table: (zone, zone) → cost per unit of data. -/
abbrev CommCosts : Type := List ((String × String) × ℚ)

/-- The module-level `DEFAULT_EXEC_COSTS` table. -/
def DEFAULT_EXEC_COSTS : ExecCosts :=
  [("HEALTH_CHECK", [("master", 35), ("worker", 25)]),
   ("NODE_SIMULATION", [("master", 180), ("worker", 150)]),
   ("RACK_SIMULATION", [("master", 380), ("worker", 350)]),
   ("INTERIM_HEALTH_CHECK", [("master", 30), ("worker", 20)]),
   ("FINAL_HEALTH_CHECK", [("master", 30), ("worker", 20)]),
   ("INITIALIZE", [("master", 15), ("worker", 12)])]

/-- The fallback cost pair used by `get_exec_cost` for an unknown task
type: `{'master': 100, 'worker': 80}`. -/
def defaultCostPair : List (String × ℚ) := [("master", 100), ("worker", 80)]

/-- `HEFTScheduler.get_exec_cost`: `base_cost[node_type] / capacity`,
where `base_cost = exec_costs.get(task_type, defaultCostPair)`.  `none`
models the `KeyError` raised for an unknown node id or a cost pair
missing the node's class. -/
def get_exec_cost (exec_costs : ExecCosts) (task_type node : String) : Option ℚ :=
  match lookupA NODES node with
  | none => none
  | some info =>
    match lookupA ((lookupA exec_costs task_type).getD defaultCostPair) info.type with
    | none => none
    | some c => some (c / info.capacity)

/-- `HEFTScheduler.get_comm_cost`:
`comm_costs.get((src_zone, dst_zone), 1.0) * data_size`.  `none` models
the `KeyError` raised for a node id absent from `NODES`. -/
def get_comm_cost (comm_costs : CommCosts) (src_node dst_node : String)
    (data_size : ℚ := 1) : Option ℚ :=
  match lookupA NODES src_node, lookupA NODES dst_node with
  | some si, some di => some ((lookupA comm_costs (si.zone, di.zone)).getD 1 * data_size)
  | _, _ => none

/-- The average execution cost of a task type across all nodes,
`sum(get_exec_cost(task_type, n) for n in nodes) / len(nodes)`
(the `avg_exec` local of `compute_upward_rank`). -/
def avg_exec_cost (exec_costs : ExecCosts) (task_type : String) : Option ℚ :=
  (mapO (fun n => get_exec_cost exec_costs task_type n) nodeIds).map
    (fun cs => cs.foldl (· + ·) 0 / (nodeIds.length : ℚ))

/-- The `avg_comm` local of `compute_upward_rank`:
`sum(get_comm_cost(n, n) for n in nodes) / len(nodes)` — note that the
code averages the cost of the *same-node* pairs `(n, n)` only.  The node
lookups inside `get_comm_cost` always succeed here because `n` ranges
over the `NODES` table itself, so the value is total. -/
def avg_comm_cost (comm_costs : CommCosts) : ℚ :=
  (NODES.map (fun p => (lookupA comm_costs (p.2.zone, p.2.zone)).getD 1 * 1)).foldl (· + ·) 0
    / (NODES.length : ℚ)

/-- The `Task` dataclass.  Field defaults mirror the Python defaults
(`upward_rank = 0.0`, `scheduled_node = None`, times `0.0`). -/
structure Task where
  id : String
  task_type : String
  predecessors : List String
  successors : List String
  upward_rank : ℚ := 0
  scheduled_node : Option String := none
  start_time : ℚ := 0
  end_time : ℚ := 0
deriving DecidableEq

/-- The mutable state of a `HEFTScheduler` instance: `self.tasks`,
`self.schedule` (task id → (node, start, end)) and
`self.node_availability`. -/
structure SchedState where
  tasks : List Task
  schedule : List (String × String × ℚ × ℚ)
  node_availability : List (String × ℚ)
deriving DecidableEq

/-- Find the task with the given id (`self.tasks[task_id]`; `none`
models the `KeyError`). -/
def findTask : List Task → String → Option Task
  | [], _ => none
  | t :: ts, tid => if t.id = tid then some t else findTask ts tid

/-- `HEFTScheduler.define_dag`: the fixed resilience-workflow DAG, in
insertion order. -/
def define_dag : List Task :=
  [{ id := "initialize", task_type := "INITIALIZE", predecessors := [],
     successors := ["health-check-1", "health-check-2", "health-check-3"] },
   { id := "health-check-1", task_type := "HEALTH_CHECK",
     predecessors := ["initialize"], successors := ["node-simulation"] },
   { id := "health-check-2", task_type := "HEALTH_CHECK",
     predecessors := ["initialize"], successors := ["node-simulation"] },
   { id := "health-check-3", task_type := "HEALTH_CHECK",
     predecessors := ["initialize"], successors := ["node-simulation"] },
   { id := "node-simulation", task_type := "NODE_SIMULATION",
     predecessors := ["health-check-1", "health-check-2", "health-check-3"],
     successors := ["interim-health-check"] },
   { id := "interim-health-check", task_type := "INTERIM_HEALTH_CHECK",
     predecessors := ["node-simulation"], successors := ["rack-simulation"] },
   { id := "rack-simulation", task_type := "RACK_SIMULATION",
     predecessors := ["interim-health-check"], successors := ["final-health-check"] },
   { id := "final-health-check", task_type := "FINAL_HEALTH_CHECK",
     predecessors := ["rack-simulation"], successors := [] }]

/-- ASCII upper-casing of one character (Python `str.upper` restricted
to the ASCII step names that occur here). -/
def upperChar (c : Char) : Char :=
  if 'a' ≤ c && c ≤ 'z' then Char.ofNat (c.toNat - 32) else c

/-- ASCII upper-casing of a string. -/
def upperStr (s : String) : String := String.mk (s.data.map upperChar)

/-- Does `pat` occur at the head of `l`? -/
def headMatch : List Char → List Char → Bool
  | [], _ => true
  | _ :: _, [] => false
  | p :: ps, c :: cs => p == c && headMatch ps cs

/-- Does `pat` occur anywhere in `l`? -/
def subOccurs (pat : List Char) : List Char → Bool
  | [] => headMatch pat []
  | l@(_ :: t) => headMatch pat l || subOccurs pat t

/-- Python `pat in s` for strings. -/
def containsSub (s pat : String) : Bool := subOccurs pat.data s.data

/-- `HEFTScheduler._normalize_task_type`: the substring-based mapping
from benchmark step names to task types. -/
def normalize_task_type (step_name : String) : String :=
  let step_upper := upperStr step_name
  if containsSub step_upper "HEALTH_CHECK_1" || containsSub step_upper "HEALTH_CHECK_2"
      || containsSub step_upper "HEALTH_CHECK_3" then "HEALTH_CHECK"
  else if containsSub step_upper "NODE" && containsSub step_upper "SIM" then "NODE_SIMULATION"
  else if containsSub step_upper "RACK" && containsSub step_upper "SIM" then "RACK_SIMULATION"
  else if containsSub step_upper "INTERIM" then "INTERIM_HEALTH_CHECK"
  else if containsSub step_upper "FINAL" then "FINAL_HEALTH_CHECK"
  else if containsSub step_upper "INIT" then "INITIALIZE"
  else step_upper

/-- One `step_statistics` update of `load_benchmark_data`: when the step
has a truthy `mean` (present and non-zero) and its normalized task type
is a key of `exec_costs`, set the type's `worker` cost to the mean and
its `master` cost to `mean * 1.2` (the code does both unconditionally). -/
def applyStepStat (exec_costs : ExecCosts) (step : String) (mean : ℚ) : ExecCosts :=
  if mean ≠ 0 then
    match lookupA exec_costs (normalize_task_type step) with
    | some pair =>
      updateAssoc exec_costs (normalize_task_type step)
        (updateAssoc (updateAssoc pair "worker" mean) "master" (mean * 1.2))
    | none => exec_costs
  else exec_costs

/-- The update loop of `HEFTScheduler.load_benchmark_data`, applied to an
already-parsed feed `{platform: [(step, mean), ...]}`.  File I/O and JSON
parsing are outside the embedding; a step whose statistics carry no
`mean` key simply does not occur in the feed. -/
def load_benchmark_data (exec_costs : ExecCosts)
    (feed : List (String × List (String × ℚ))) : ExecCosts :=
  feed.foldl (fun ec p => p.2.foldl (fun ec2 st => applyStepStat ec2 st.1 st.2) ec) exec_costs

/-- A memo table for `compute_upward_rank`. -/
abbrev Memo := List (String × ℚ)

/-- The successor loop of `compute_upward_rank`: threads the memo through
the recursive calls and accumulates
`max_successor_rank = max(acc, avg_comm + succ_rank)`. -/
def rankSuccs (comm_costs : CommCosts)
    (rec : String → Memo → Option (ℚ × Memo)) :
    List String → ℚ → Memo → Option (ℚ × Memo)
  | [], acc, memo => some (acc, memo)
  | sid :: rest, acc, memo =>
    match rec sid memo with
    | none => none
    | some p => rankSuccs comm_costs rec rest (max acc (avg_comm_cost comm_costs + p.1)) p.2

/-- The memoisation step closing `compute_upward_rank`:
`rank = avg_exec + max_successor_rank; memo[task_id] = rank`. -/
def rankWrap (task_id : String) (avg_exec : ℚ) : Option (ℚ × Memo) → Option (ℚ × Memo)
  | none => none
  | some p => some (avg_exec + p.1, updateAssoc p.2 task_id (avg_exec + p.1))

/-- One unfolding of `compute_upward_rank`: memo hit, else average
execution cost plus the maximal successor contribution, memoised after
the recursive calls return (exactly the Python control flow). -/
def rankBody (tasks : List Task) (exec_costs : ExecCosts) (comm_costs : CommCosts)
    (rec : String → Memo → Option (ℚ × Memo)) (task_id : String) (memo : Memo) :
    Option (ℚ × Memo) :=
  match lookupA memo task_id with
  | some r => some (r, memo)
  | none =>
    match findTask tasks task_id with
    | none => none
    | some task =>
      match avg_exec_cost exec_costs task.task_type with
      | none => none
      | some avg_exec =>
        match task.successors with
        | [] => some (avg_exec, updateAssoc memo task_id avg_exec)
        | s :: rest =>
          rankWrap task_id avg_exec (rankSuccs comm_costs rec (s :: rest) 0 memo)

/-- `HEFTScheduler.compute_upward_rank`, with an explicit recursion-depth
budget.  `none` models a recursion that never reaches a base case (on a
cyclic graph the memo check can never hit, because the memo is only
written after the recursive calls return). -/
def compute_upward_rank (tasks : List Task) (exec_costs : ExecCosts)
    (comm_costs : CommCosts) (fuel : Nat) : String → Memo → Option (ℚ × Memo) :=
  Nat.rec (motive := fun _ => String → Memo → Option (ℚ × Memo))
    (fun _ _ => none)
    (fun _ ih => rankBody tasks exec_costs comm_costs ih)
    fuel

/-- The loop of `compute_all_ranks`: one `compute_upward_rank` call per
task, sharing the memo. -/
def ranksLoop (tasks : List Task) (exec_costs : ExecCosts) (comm_costs : CommCosts)
    (fuel : Nat) : List Task → Memo → Option Memo
  | [], memo => some memo
  | t :: ts, memo =>
    match compute_upward_rank tasks exec_costs comm_costs fuel t.id memo with
    | none => none
    | some p => ranksLoop tasks exec_costs comm_costs fuel ts p.2

/-- `HEFTScheduler.compute_all_ranks`.  The depth budget
`tasks.length + 1` suffices for every acyclic graph (the recursion depth
is bounded by the longest path), so `none` occurs exactly when the
Python recursion would never terminate. -/
def compute_all_ranks (exec_costs : ExecCosts) (comm_costs : CommCosts)
    (tasks : List Task) : Option Memo :=
  ranksLoop tasks exec_costs comm_costs (tasks.length + 1) tasks []

/-- Insert a task into a descending-by-rank list, after every task of
rank ≥ its own. -/
def insertByRank (t : Task) : List Task → List Task
  | [] => [t]
  | x :: xs => if x.upward_rank < t.upward_rank then t :: x :: xs else x :: insertByRank t xs

/-- `sorted(self.tasks.values(), key=lambda t: t.upward_rank,
reverse=True)`: the stable descending sort (ties keep insertion
order). -/
def sortByRankDesc (ts : List Task) : List Task :=
  ts.foldl (fun acc t => insertByRank t acc) []

/-- `self.node_availability = {n: 0.0 for n in NODES}`. -/
def initAvail : List (String × ℚ) := NODES.map (fun p => (p.1, 0))

/-- The predecessor loop of `get_earliest_finish_time`: predecessors
without an assigned node are skipped (`if pred_task.scheduled_node:`). -/
def predReadyLoop (comm_costs : CommCosts) (tasks : List Task) (node : String) :
    List String → ℚ → Option ℚ
  | [], acc => some acc
  | pid :: rest, acc =>
    match findTask tasks pid with
    | none => none
    | some pt =>
      match pt.scheduled_node with
      | none => predReadyLoop comm_costs tasks node rest acc
      | some pn =>
        match get_comm_cost comm_costs pn node with
        | none => none
        | some comm => predReadyLoop comm_costs tasks node rest (max acc (pt.end_time + comm))

/-- `HEFTScheduler.get_earliest_finish_time`:
`start = max(node_ready, pred_ready)`, `end = start + exec_time`. -/
def get_earliest_finish_time (exec_costs : ExecCosts) (comm_costs : CommCosts)
    (tasks : List Task) (node_availability : List (String × ℚ))
    (task : Task) (node : String) : Option (ℚ × ℚ) :=
  match lookupA node_availability node with
  | none => none
  | some node_ready =>
    match predReadyLoop comm_costs tasks node task.predecessors 0 with
    | none => none
    | some pred_ready =>
      match get_exec_cost exec_costs task.task_type node with
      | none => none
      | some exec_time =>
        some (max node_ready pred_ready, max node_ready pred_ready + exec_time)

/-- The node-selection loop of `schedule_task`: starting from
`best_end = inf`, keep the first candidate of strictly smallest finish
time (`if end < best_end`), in `NODES` iteration order. -/
def bestCandidate : List (String × ℚ × ℚ) → Option (String × ℚ × ℚ)
  | [] => none
  | c :: cs => some (cs.foldl (fun b c2 => if c2.2.2 < b.2.2 then c2 else b) c)

/-- `HEFTScheduler.schedule_task`: pick the earliest-finish node, record
the assignment on the task, the schedule and the node availability. -/
def schedule_task (exec_costs : ExecCosts) (comm_costs : CommCosts)
    (s : SchedState) (task_id : String) : Option SchedState :=
  match findTask s.tasks task_id with
  | none => none
  | some task =>
    match mapO (fun n =>
        (get_earliest_finish_time exec_costs comm_costs s.tasks s.node_availability task n).map
          (fun p => (n, p.1, p.2))) nodeIds with
    | none => none
    | some cands =>
      match bestCandidate cands with
      | none => none
      | some best =>
        some { tasks := s.tasks.map (fun t => if t.id = task_id then
                 { t with scheduled_node := some best.1, start_time := best.2.1,
                          end_time := best.2.2 } else t),
               schedule := updateAssoc s.schedule task_id best,
               node_availability := updateAssoc s.node_availability best.1 best.2.2 }

/-- The scheduling loop of `run_heft` (step 4). -/
def schedLoop (exec_costs : ExecCosts) (comm_costs : CommCosts) :
    List Task → SchedState → Option SchedState
  | [], s => some s
  | t :: ts, s =>
    match schedule_task exec_costs comm_costs s t.id with
    | none => none
    | some s2 => schedLoop exec_costs comm_costs ts s2

/-- The scheduling loop again, returning the state after every
`schedule_task` call (the trace of the run). -/
def schedTrace (exec_costs : ExecCosts) (comm_costs : CommCosts) :
    List Task → SchedState → Option (List SchedState)
  | [], _ => some []
  | t :: ts, s =>
    match schedule_task exec_costs comm_costs s t.id with
    | none => none
    | some s2 => (schedTrace exec_costs comm_costs ts s2).map (s2 :: ·)

/-- Ranked copy of a task list: every task carries the rank recorded for
it in the memo (the Python code stores the same value imperatively via
`task.upward_rank = rank` while computing). -/
def setRanks (tasks : List Task) (memo : Memo) : List Task :=
  tasks.map (fun t => { t with upward_rank := (lookupA memo t.id).getD t.upward_rank })

/-- `HEFTScheduler.run_heft` on an explicit task set: rank every task,
sort by descending rank, schedule greedily.  Returns the final scheduler
state (whose `.schedule` field is the Python return value). -/
def run_heft_on (tasks : List Task) (exec_costs : ExecCosts) (comm_costs : CommCosts) :
    Option SchedState :=
  match compute_all_ranks exec_costs comm_costs tasks with
  | none => none
  | some memo =>
    let ranked := setRanks tasks memo
    schedLoop exec_costs comm_costs (sortByRankDesc ranked) ⟨ranked, [], initAvail⟩

/-- `HEFTScheduler.run_heft`: the DAG is the fixed one of `define_dag`. -/
def run_heft (exec_costs : ExecCosts) (comm_costs : CommCosts) : Option SchedState :=
  run_heft_on define_dag exec_costs comm_costs

/-- The per-call state trace of `run_heft`. -/
def run_heft_states (exec_costs : ExecCosts) (comm_costs : CommCosts) :
    Option (List SchedState) :=
  match compute_all_ranks exec_costs comm_costs define_dag with
  | none => none
  | some memo =>
    let ranked := setRanks define_dag memo
    schedTrace exec_costs comm_costs (sortByRankDesc ranked) ⟨ranked, [], initAvail⟩

/-- The result shape of `get_exclusion_info`: either the per-task record
`{'exclude_node': ..., 'exclude_zone': ...}` or the whole-schedule
summary `{'exclude_nodes': ..., 'exclude_zones': ...}` (Python builds
the latter from unordered `set`s, modelled by `Finset`s). -/
inductive ExclusionInfo where
  | perTask (exclude_node exclude_zone : String)
  | summary (exclude_nodes exclude_zones : Finset String)
deriving DecidableEq

/-- The fallthrough branch of `get_exclusion_info`: all scheduled nodes
and the zones they live in. -/
def exclusion_summary (s : SchedState) : Option ExclusionInfo :=
  match mapO (fun n => (lookupA NODES n).map (·.zone)) (s.schedule.map (fun e => e.2.1)).dedup with
  | none => none
  | some zs => some (.summary (s.schedule.map (fun e => e.2.1)).toFinset zs.toFinset)

/-- `HEFTScheduler.get_exclusion_info`: the per-task record exactly when
`task_id` is truthy (non-empty) and present in the schedule, otherwise
the whole-schedule summary. -/
def get_exclusion_info (s : SchedState) (task_id : Option String) : Option ExclusionInfo :=
  match task_id with
  | some tid =>
    if tid ≠ "" then
      match lookupA s.schedule tid with
      | some e => (lookupA NODES e.1).map (fun info => .perTask e.1 info.zone)
      | none => exclusion_summary s
    else exclusion_summary s
  | none => exclusion_summary s

/-- The edges `u → v` of the fixed DAG. -/
def dagEdges : List (String × String) :=
  (define_dag.map (fun t => t.successors.map (fun sid => (t.id, sid)))).flatten

/-- Precedence preservation of a final state: for every DAG edge
`u → v`, both endpoints are scheduled and
`end(u) + comm(node(u), node(v)) ≤ start(v)`. -/
def precedenceCheck (s : SchedState) : Bool :=
  dagEdges.all (fun e =>
    match lookupA s.schedule e.1, lookupA s.schedule e.2 with
    | some u, some v =>
      match get_comm_cost COMM_COSTS u.1 v.1 with
      | some comm => decide (u.2.2 + comm ≤ v.2.1)
      | none => false
    | _, _ => false)

/-- Run `run_heft` with the module's default tables and test the final
state. -/
def runCheck (p : SchedState → Bool) : Bool :=
  match run_heft DEFAULT_EXEC_COSTS COMM_COSTS with
  | none => false
  | some s => p s

/-- Rank properties of the default run at one task: its rank is at
least its average execution cost, with equality when it has no
successors. -/
def rankCheckAt (tid : String) : Bool :=
  match compute_all_ranks DEFAULT_EXEC_COSTS COMM_COSTS define_dag with
  | none => false
  | some memo =>
    match findTask define_dag tid with
    | none => false
    | some t =>
      match lookupA memo t.id, avg_exec_cost DEFAULT_EXEC_COSTS t.task_type with
      | some r, some a =>
        decide (a ≤ r) && (if t.successors.isEmpty then decide (r = a) else true)
      | _, _ => false

/-- Mutual consistency of the schedule mapping and the task objects:
every schedule entry equals the task's recorded assignment, names a
fleet node, and has `start ≤ end`. -/
def consistentB (s : SchedState) : Bool :=
  (s.schedule.map (·.1)).all (fun tid =>
    match lookupA s.schedule tid, findTask s.tasks tid with
    | some e, some t =>
      decide (t.scheduled_node = some e.1) && decide (t.start_time = e.2.1) &&
        decide (t.end_time = e.2.2) && (lookupA NODES e.1).isSome && decide (e.2.1 ≤ e.2.2)
    | _, _ => false)

/-- Test every intermediate state of the default run (the state after
each `schedule_task` call). -/
def traceCheck (p : SchedState → Bool) : Bool :=
  match run_heft_states DEFAULT_EXEC_COSTS COMM_COSTS with
  | none => false
  | some states => states.all p

/-- Following the spec's words (§4.3), for comparison with the code: the
communication cost averaged uniformly over all ordered node pairs. -/
def specAvgCommAllPairs (comm_costs : CommCosts) : ℚ :=
  ((NODES.map (fun p1 => (NODES.map (fun p2 =>
      (lookupA comm_costs (p1.2.zone, p2.2.zone)).getD 1 * 1)).foldl (· + ·) 0)).foldl
        (· + ·) 0)
    / ((NODES.length : ℚ) * (NODES.length : ℚ))

/-- The spec's rank recurrence at one task of the default run, with the
communication cost averaged over all ordered node pairs. -/
def c3SpecCheckAt (tid : String) : Bool :=
  match compute_all_ranks DEFAULT_EXEC_COSTS COMM_COSTS define_dag with
  | none => false
  | some memo =>
    match findTask define_dag tid, lookupA memo tid with
    | some t, some r =>
      match avg_exec_cost DEFAULT_EXEC_COSTS t.task_type,
            mapO (fun sid => lookupA memo sid) t.successors with
      | some a, some rs =>
        decide (r = a + (rs.map (fun sr => specAvgCommAllPairs COMM_COSTS + sr)).foldl max 0)
      | _, _ => false
    | _, _ => false

/-- The rank recurrence the code actually implements, at one task of the
default run: a task without successors passes trivially; otherwise the
communication term is `avg_comm_cost`, the average over the same-node
pairs `(n, n)` only. -/
def c3CodeCheckAt (tid : String) : Bool :=
  match compute_all_ranks DEFAULT_EXEC_COSTS COMM_COSTS define_dag with
  | none => false
  | some memo =>
    match findTask define_dag tid with
    | none => false
    | some t =>
      if t.successors.isEmpty then true
      else
        match lookupA memo t.id, avg_exec_cost DEFAULT_EXEC_COSTS t.task_type,
              mapO (fun sid => lookupA memo sid) t.successors with
        | some r, some a, some rs =>
          decide (r = a + (rs.map (fun sr => avg_comm_cost COMM_COSTS + sr)).foldl max 0)
        | _, _, _ => false

/-- The cyclic two-task graph `A → B → A` of the cycle-rejection
property. -/
def cyclicTasks : List Task :=
  [{ id := "A", task_type := "HEALTH_CHECK", predecessors := ["B"], successors := ["B"] },
   { id := "B", task_type := "HEALTH_CHECK", predecessors := ["A"], successors := ["A"] }]

/-- Node availabilities never decrease: the claim is stated against this
读 lookup with default `0` (a node absent from the map — impossible in a
real run — counts as available at `0`). -/
def availD (s : SchedState) (n : String) : ℚ := (lookupA s.node_availability n).getD 0

/-- All costs of an execution-cost table are non-negative (true of the
default table and of any table of measured durations). -/
def execCostsNonneg (ec : ExecCosts) : Prop := ∀ p ∈ ec, ∀ q ∈ p.2, 0 ≤ q.2

/-- The `master` entry of a cost table row. -/
def masterCostOf (ec : ExecCosts) (task_type : String) : Option ℚ :=
  (lookupA ec task_type).bind (fun pair => lookupA pair "master")

/-- The `worker` entry of a cost table row. -/
def workerCostOf (ec : ExecCosts) (task_type : String) : Option ℚ :=
  (lookupA ec task_type).bind (fun pair => lookupA pair "worker")

/-- A broken-graph state for the ready-time claims: task `u` is an
unscheduled predecessor of `v`. -/
def c8Tasks : List Task :=
  [{ id := "u", task_type := "HEALTH_CHECK", predecessors := [], successors := ["v"] },
   { id := "v", task_type := "HEALTH_CHECK", predecessors := ["u"], successors := [] }]

/-- The same graph with `u` scheduled on `worker-w003` finishing at
`100`, for contrast. -/
def c8TasksScheduled : List Task :=
  [{ id := "u", task_type := "HEALTH_CHECK", predecessors := [], successors := ["v"],
     scheduled_node := some "worker-w003", start_time := 50, end_time := 100 },
   { id := "v", task_type := "HEALTH_CHECK", predecessors := ["u"], successors := [] }]

/-- The dependent task `v` of `c8Tasks`. -/
def c8TaskV : Task :=
  { id := "v", task_type := "HEALTH_CHECK", predecessors := ["u"], successors := [] }

/-- The value `get_earliest_finish_time` produces when every predecessor
contributes nothing to the ready time: `pred_ready` stays `0`, so
`start = max(node_ready, 0)` and `end = start + exec_time`. -/
def eftNoPredValue (exec_costs : ExecCosts) (avail : List (String × ℚ))
    (task_type node : String) : Option (ℚ × ℚ) :=
  match lookupA avail node, get_exec_cost exec_costs task_type node with
  | some nr, some ex => some (max nr 0, max nr 0 + ex)
  | _, _ => none

/-- A small state with one schedule entry, for the exclusion-query
claims. -/
def c9State : SchedState :=
  { tasks := [], schedule := [("t1", ("worker-w001", (0 : ℚ), (25 : ℚ)))],
    node_availability := [] }

/-- The initial scheduler state over the fixed DAG (before any ranks are
assigned), used to exercise `schedule_task` directly. -/
def initState : SchedState := { tasks := define_dag, schedule := [], node_availability := initAvail }

/-- The upward ranks the default run computes, keyed by task id in
memoisation order (values read back from the completed computation). -/
def rankMemoLit : Memo :=
  [("final-health-check", 155/6), ("rack-simulation", 2088/5),
   ("interim-health-check", 6653/15), ("node-simulation", 18559/30),
   ("health-check-1", 38999/60), ("health-check-2", 38999/60),
   ("health-check-3", 38999/60), ("initialize", 1993/3)]

/-- The ranked tasks of the default run in descending-rank order (ties
keep insertion order). -/
def sortedTasksLit : List Task :=
  [{ id := "initialize", task_type := "INITIALIZE",
     predecessors := [],
     successors := ["health-check-1", "health-check-2", "health-check-3"],
     upward_rank := (1993 : ℚ) / 3, scheduled_node := none,
     start_time := (0 : ℚ) / 1, end_time := (0 : ℚ) / 1 },
   { id := "health-check-1", task_type := "HEALTH_CHECK",
     predecessors := ["initialize"],
     successors := ["node-simulation"],
     upward_rank := (38999 : ℚ) / 60, scheduled_node := none,
     start_time := (0 : ℚ) / 1, end_time := (0 : ℚ) / 1 },
   { id := "health-check-2", task_type := "HEALTH_CHECK",
     predecessors := ["initialize"],
     successors := ["node-simulation"],
     upward_rank := (38999 : ℚ) / 60, scheduled_node := none,
     start_time := (0 : ℚ) / 1, end_time := (0 : ℚ) / 1 },
   { id := "health-check-3", task_type := "HEALTH_CHECK",
     predecessors := ["initialize"],
     successors := ["node-simulation"],
     upward_rank := (38999 : ℚ) / 60, scheduled_node := none,
     start_time := (0 : ℚ) / 1, end_time := (0 : ℚ) / 1 },
   { id := "node-simulation", task_type := "NODE_SIMULATION",
     predecessors := ["health-check-1", "health-check-2", "health-check-3"],
     successors := ["interim-health-check"],
     upward_rank := (18559 : ℚ) / 30, scheduled_node := none,
     start_time := (0 : ℚ) / 1, end_time := (0 : ℚ) / 1 },
   { id := "interim-health-check", task_type := "INTERIM_HEALTH_CHECK",
     predecessors := ["node-simulation"],
     successors := ["rack-simulation"],
     upward_rank := (6653 : ℚ) / 15, scheduled_node := none,
     start_time := (0 : ℚ) / 1, end_time := (0 : ℚ) / 1 },
   { id := "rack-simulation", task_type := "RACK_SIMULATION",
     predecessors := ["interim-health-check"],
     successors := ["final-health-check"],
     upward_rank := (2088 : ℚ) / 5, scheduled_node := none,
     start_time := (0 : ℚ) / 1, end_time := (0 : ℚ) / 1 },
   { id := "final-health-check", task_type := "FINAL_HEALTH_CHECK",
     predecessors := ["rack-simulation"],
     successors := [],
     upward_rank := (155 : ℚ) / 6, scheduled_node := none,
     start_time := (0 : ℚ) / 1, end_time := (0 : ℚ) / 1 }]

/-- The scheduler states of the default run: `schedStateLit0` before
any assignment, `schedStateLitN` after the `N`-th `schedule_task` call.
The literals record the values the computation produces; the staged
evaluation theorems below prove each step equal to the next literal. -/

def schedStateLit0 : SchedState :=
  ⟨[{ id := "initialize", task_type := "INITIALIZE",
      predecessors := [],
      successors := ["health-check-1", "health-check-2", "health-check-3"],
      upward_rank := (1993 : ℚ) / 3, scheduled_node := none,
      start_time := (0 : ℚ) / 1, end_time := (0 : ℚ) / 1 },
   { id := "health-check-1", task_type := "HEALTH_CHECK",
      predecessors := ["initialize"],
      successors := ["node-simulation"],
      upward_rank := (38999 : ℚ) / 60, scheduled_node := none,
      start_time := (0 : ℚ) / 1, end_time := (0 : ℚ) / 1 },
   { id := "health-check-2", task_type := "HEALTH_CHECK",
      predecessors := ["initialize"],
      successors := ["node-simulation"],
      upward_rank := (38999 : ℚ) / 60, scheduled_node := none,
      start_time := (0 : ℚ) / 1, end_time := (0 : ℚ) / 1 },
   { id := "health-check-3", task_type := "HEALTH_CHECK",
      predecessors := ["initialize"],
      successors := ["node-simulation"],
      upward_rank := (38999 : ℚ) / 60, scheduled_node := none,
      start_time := (0 : ℚ) / 1, end_time := (0 : ℚ) / 1 },
   { id := "node-simulation", task_type := "NODE_SIMULATION",
      predecessors := ["health-check-1", "health-check-2", "health-check-3"],
      successors := ["interim-health-check"],
      upward_rank := (18559 : ℚ) / 30, scheduled_node := none,
      start_time := (0 : ℚ) / 1, end_time := (0 : ℚ) / 1 },
   { id := "interim-health-check", task_type := "INTERIM_HEALTH_CHECK",
      predecessors := ["node-simulation"],
      successors := ["rack-simulation"],
      upward_rank := (6653 : ℚ) / 15, scheduled_node := none,
      start_time := (0 : ℚ) / 1, end_time := (0 : ℚ) / 1 },
   { id := "rack-simulation", task_type := "RACK_SIMULATION",
      predecessors := ["interim-health-check"],
      successors := ["final-health-check"],
      upward_rank := (2088 : ℚ) / 5, scheduled_node := none,
      start_time := (0 : ℚ) / 1, end_time := (0 : ℚ) / 1 },
   { id := "final-health-check", task_type := "FINAL_HEALTH_CHECK",
      predecessors := ["rack-simulation"],
      successors := [],
      upward_rank := (155 : ℚ) / 6, scheduled_node := none,
      start_time := (0 : ℚ) / 1, end_time := (0 : ℚ) / 1 }],
   [],
   [("master-m001", (0 : ℚ) / 1), ("master-m002", (0 : ℚ) / 1), ("master-m003", (0 : ℚ) / 1), ("worker-w001", (0 : ℚ) / 1), ("worker-w002", (0 : ℚ) / 1), ("worker-w003", (0 : ℚ) / 1), ("worker-w004", (0 : ℚ) / 1), ("worker-w005", (0 : ℚ) / 1), ("worker-w006", (0 : ℚ) / 1)]⟩

def schedStateLit1 : SchedState :=
  ⟨[{ id := "initialize", task_type := "INITIALIZE",
      predecessors := [],
      successors := ["health-check-1", "health-check-2", "health-check-3"],
      upward_rank := (1993 : ℚ) / 3, scheduled_node := some "worker-w001",
      start_time := (0 : ℚ) / 1, end_time := (12 : ℚ) / 1 },
   { id := "health-check-1", task_type := "HEALTH_CHECK",
      predecessors := ["initialize"],
      successors := ["node-simulation"],
      upward_rank := (38999 : ℚ) / 60, scheduled_node := none,
      start_time := (0 : ℚ) / 1, end_time := (0 : ℚ) / 1 },
   { id := "health-check-2", task_type := "HEALTH_CHECK",
      predecessors := ["initialize"],
      successors := ["node-simulation"],
      upward_rank := (38999 : ℚ) / 60, scheduled_node := none,
      start_time := (0 : ℚ) / 1, end_time := (0 : ℚ) / 1 },
   { id := "health-check-3", task_type := "HEALTH_CHECK",
      predecessors := ["initialize"],
      successors := ["node-simulation"],
      upward_rank := (38999 : ℚ) / 60, scheduled_node := none,
      start_time := (0 : ℚ) / 1, end_time := (0 : ℚ) / 1 },
   { id := "node-simulation", task_type := "NODE_SIMULATION",
      predecessors := ["health-check-1", "health-check-2", "health-check-3"],
      successors := ["interim-health-check"],
      upward_rank := (18559 : ℚ) / 30, scheduled_node := none,
      start_time := (0 : ℚ) / 1, end_time := (0 : ℚ) / 1 },
   { id := "interim-health-check", task_type := "INTERIM_HEALTH_CHECK",
      predecessors := ["node-simulation"],
      successors := ["rack-simulation"],
      upward_rank := (6653 : ℚ) / 15, scheduled_node := none,
      start_time := (0 : ℚ) / 1, end_time := (0 : ℚ) / 1 },
   { id := "rack-simulation", task_type := "RACK_SIMULATION",
      predecessors := ["interim-health-check"],
      successors := ["final-health-check"],
      upward_rank := (2088 : ℚ) / 5, scheduled_node := none,
      start_time := (0 : ℚ) / 1, end_time := (0 : ℚ) / 1 },
   { id := "final-health-check", task_type := "FINAL_HEALTH_CHECK",
      predecessors := ["rack-simulation"],
      successors := [],
      upward_rank := (155 : ℚ) / 6, scheduled_node := none,
      start_time := (0 : ℚ) / 1, end_time := (0 : ℚ) / 1 }],
   [("initialize", "worker-w001", (0 : ℚ) / 1, (12 : ℚ) / 1)],
   [("master-m001", (0 : ℚ) / 1), ("master-m002", (0 : ℚ) / 1), ("master-m003", (0 : ℚ) / 1), ("worker-w001", (12 : ℚ) / 1), ("worker-w002", (0 : ℚ) / 1), ("worker-w003", (0 : ℚ) / 1), ("worker-w004", (0 : ℚ) / 1), ("worker-w005", (0 : ℚ) / 1), ("worker-w006", (0 : ℚ) / 1)]⟩

def schedStateLit2 : SchedState :=
  ⟨[{ id := "initialize", task_type := "INITIALIZE",
      predecessors := [],
      successors := ["health-check-1", "health-check-2", "health-check-3"],
      upward_rank := (1993 : ℚ) / 3, scheduled_node := some "worker-w001",
      start_time := (0 : ℚ) / 1, end_time := (12 : ℚ) / 1 },
   { id := "health-check-1", task_type := "HEALTH_CHECK",
      predecessors := ["initialize"],
      successors := ["node-simulation"],
      upward_rank := (38999 : ℚ) / 60, scheduled_node := some "worker-w001",
      start_time := (121 : ℚ) / 10, end_time := (371 : ℚ) / 10 },
   { id := "health-check-2", task_type := "HEALTH_CHECK",
      predecessors := ["initialize"],
      successors := ["node-simulation"],
      upward_rank := (38999 : ℚ) / 60, scheduled_node := none,
      start_time := (0 : ℚ) / 1, end_time := (0 : ℚ) / 1 },
   { id := "health-check-3", task_type := "HEALTH_CHECK",
      predecessors := ["initialize"],
      successors := ["node-simulation"],
      upward_rank := (38999 : ℚ) / 60, scheduled_node := none,
      start_time := (0 : ℚ) / 1, end_time := (0 : ℚ) / 1 },
   { id := "node-simulation", task_type := "NODE_SIMULATION",
      predecessors := ["health-check-1", "health-check-2", "health-check-3"],
      successors := ["interim-health-check"],
      upward_rank := (18559 : ℚ) / 30, scheduled_node := none,
      start_time := (0 : ℚ) / 1, end_time := (0 : ℚ) / 1 },
   { id := "interim-health-check", task_type := "INTERIM_HEALTH_CHECK",
      predecessors := ["node-simulation"],
      successors := ["rack-simulation"],
      upward_rank := (6653 : ℚ) / 15, scheduled_node := none,
      start_time := (0 : ℚ) / 1, end_time := (0 : ℚ) / 1 },
   { id := "rack-simulation", task_type := "RACK_SIMULATION",
      predecessors := ["interim-health-check"],
      successors := ["final-health-check"],
      upward_rank := (2088 : ℚ) / 5, scheduled_node := none,
      start_time := (0 : ℚ) / 1, end_time := (0 : ℚ) / 1 },
   { id := "final-health-check", task_type := "FINAL_HEALTH_CHECK",
      predecessors := ["rack-simulation"],
      successors := [],
      upward_rank := (155 : ℚ) / 6, scheduled_node := none,
      start_time := (0 : ℚ) / 1, end_time := (0 : ℚ) / 1 }],
   [("initialize", "worker-w001", (0 : ℚ) / 1, (12 : ℚ) / 1),
   ("health-check-1", "worker-w001", (121 : ℚ) / 10, (371 : ℚ) / 10)],
   [("master-m001", (0 : ℚ) / 1), ("master-m002", (0 : ℚ) / 1), ("master-m003", (0 : ℚ) / 1), ("worker-w001", (371 : ℚ) / 10), ("worker-w002", (0 : ℚ) / 1), ("worker-w003", (0 : ℚ) / 1), ("worker-w004", (0 : ℚ) / 1), ("worker-w005", (0 : ℚ) / 1), ("worker-w006", (0 : ℚ) / 1)]⟩

def schedStateLit3 : SchedState :=
  ⟨[{ id := "initialize", task_type := "INITIALIZE",
      predecessors := [],
      successors := ["health-check-1", "health-check-2", "health-check-3"],
      upward_rank := (1993 : ℚ) / 3, scheduled_node := some "worker-w001",
      start_time := (0 : ℚ) / 1, end_time := (12 : ℚ) / 1 },
   { id := "health-check-1", task_type := "HEALTH_CHECK",
      predecessors := ["initialize"],
      successors := ["node-simulation"],
      upward_rank := (38999 : ℚ) / 60, scheduled_node := some "worker-w001",
      start_time := (121 : ℚ) / 10, end_time := (371 : ℚ) / 10 },
   { id := "health-check-2", task_type := "HEALTH_CHECK",
      predecessors := ["initialize"],
      successors := ["node-simulation"],
      upward_rank := (38999 : ℚ) / 60, scheduled_node := some "worker-w002",
      start_time := (121 : ℚ) / 10, end_time := (371 : ℚ) / 10 },
   { id := "health-check-3", task_type := "HEALTH_CHECK",
      predecessors := ["initialize"],
      successors := ["node-simulation"],
      upward_rank := (38999 : ℚ) / 60, scheduled_node := none,
      start_time := (0 : ℚ) / 1, end_time := (0 : ℚ) / 1 },
   { id := "node-simulation", task_type := "NODE_SIMULATION",
      predecessors := ["health-check-1", "health-check-2", "health-check-3"],
      successors := ["interim-health-check"],
      upward_rank := (18559 : ℚ) / 30, scheduled_node := none,
      start_time := (0 : ℚ) / 1, end_time := (0 : ℚ) / 1 },
   { id := "interim-health-check", task_type := "INTERIM_HEALTH_CHECK",
      predecessors := ["node-simulation"],
      successors := ["rack-simulation"],
      upward_rank := (6653 : ℚ) / 15, scheduled_node := none,
      start_time := (0 : ℚ) / 1, end_time := (0 : ℚ) / 1 },
   { id := "rack-simulation", task_type := "RACK_SIMULATION",
      predecessors := ["interim-health-check"],
      successors := ["final-health-check"],
      upward_rank := (2088 : ℚ) / 5, scheduled_node := none,
      start_time := (0 : ℚ) / 1, end_time := (0 : ℚ) / 1 },
   { id := "final-health-check", task_type := "FINAL_HEALTH_CHECK",
      predecessors := ["rack-simulation"],
      successors := [],
      upward_rank := (155 : ℚ) / 6, scheduled_node := none,
      start_time := (0 : ℚ) / 1, end_time := (0 : ℚ) / 1 }],
   [("initialize", "worker-w001", (0 : ℚ) / 1, (12 : ℚ) / 1),
   ("health-check-1", "worker-w001", (121 : ℚ) / 10, (371 : ℚ) / 10),
   ("health-check-2", "worker-w002", (121 : ℚ) / 10, (371 : ℚ) / 10)],
   [("master-m001", (0 : ℚ) / 1), ("master-m002", (0 : ℚ) / 1), ("master-m003", (0 : ℚ) / 1), ("worker-w001", (371 : ℚ) / 10), ("worker-w002", (371 : ℚ) / 10), ("worker-w003", (0 : ℚ) / 1), ("worker-w004", (0 : ℚ) / 1), ("worker-w005", (0 : ℚ) / 1), ("worker-w006", (0 : ℚ) / 1)]⟩

def schedStateLit4 : SchedState :=
  ⟨[{ id := "initialize", task_type := "INITIALIZE",
      predecessors := [],
      successors := ["health-check-1", "health-check-2", "health-check-3"],
      upward_rank := (1993 : ℚ) / 3, scheduled_node := some "worker-w001",
      start_time := (0 : ℚ) / 1, end_time := (12 : ℚ) / 1 },
   { id := "health-check-1", task_type := "HEALTH_CHECK",
      predecessors := ["initialize"],
      successors := ["node-simulation"],
      upward_rank := (38999 : ℚ) / 60, scheduled_node := some "worker-w001",
      start_time := (121 : ℚ) / 10, end_time := (371 : ℚ) / 10 },
   { id := "health-check-2", task_type := "HEALTH_CHECK",
      predecessors := ["initialize"],
      successors := ["node-simulation"],
      upward_rank := (38999 : ℚ) / 60, scheduled_node := some "worker-w002",
      start_time := (121 : ℚ) / 10, end_time := (371 : ℚ) / 10 },
   { id := "health-check-3", task_type := "HEALTH_CHECK",
      predecessors := ["initialize"],
      successors := ["node-simulation"],
      upward_rank := (38999 : ℚ) / 60, scheduled_node := some "worker-w003",
      start_time := (27 : ℚ) / 2, end_time := (77 : ℚ) / 2 },
   { id := "node-simulation", task_type := "NODE_SIMULATION",
      predecessors := ["health-check-1", "health-check-2", "health-check-3"],
      successors := ["interim-health-check"],
      upward_rank := (18559 : ℚ) / 30, scheduled_node := none,
      start_time := (0 : ℚ) / 1, end_time := (0 : ℚ) / 1 },
   { id := "interim-health-check", task_type := "INTERIM_HEALTH_CHECK",
      predecessors := ["node-simulation"],
      successors := ["rack-simulation"],
      upward_rank := (6653 : ℚ) / 15, scheduled_node := none,
      start_time := (0 : ℚ) / 1, end_time := (0 : ℚ) / 1 },
   { id := "rack-simulation", task_type := "RACK_SIMULATION",
      predecessors := ["interim-health-check"],
      successors := ["final-health-check"],
      upward_rank := (2088 : ℚ) / 5, scheduled_node := none,
      start_time := (0 : ℚ) / 1, end_time := (0 : ℚ) / 1 },
   { id := "final-health-check", task_type := "FINAL_HEALTH_CHECK",
      predecessors := ["rack-simulation"],
      successors := [],
      upward_rank := (155 : ℚ) / 6, scheduled_node := none,
      start_time := (0 : ℚ) / 1, end_time := (0 : ℚ) / 1 }],
   [("initialize", "worker-w001", (0 : ℚ) / 1, (12 : ℚ) / 1),
   ("health-check-1", "worker-w001", (121 : ℚ) / 10, (371 : ℚ) / 10),
   ("health-check-2", "worker-w002", (121 : ℚ) / 10, (371 : ℚ) / 10),
   ("health-check-3", "worker-w003", (27 : ℚ) / 2, (77 : ℚ) / 2)],
   [("master-m001", (0 : ℚ) / 1), ("master-m002", (0 : ℚ) / 1), ("master-m003", (0 : ℚ) / 1), ("worker-w001", (371 : ℚ) / 10), ("worker-w002", (371 : ℚ) / 10), ("worker-w003", (77 : ℚ) / 2), ("worker-w004", (0 : ℚ) / 1), ("worker-w005", (0 : ℚ) / 1), ("worker-w006", (0 : ℚ) / 1)]⟩

def schedStateLit5 : SchedState :=
  ⟨[{ id := "initialize", task_type := "INITIALIZE",
      predecessors := [],
      successors := ["health-check-1", "health-check-2", "health-check-3"],
      upward_rank := (1993 : ℚ) / 3, scheduled_node := some "worker-w001",
      start_time := (0 : ℚ) / 1, end_time := (12 : ℚ) / 1 },
   { id := "health-check-1", task_type := "HEALTH_CHECK",
      predecessors := ["initialize"],
      successors := ["node-simulation"],
      upward_rank := (38999 : ℚ) / 60, scheduled_node := some "worker-w001",
      start_time := (121 : ℚ) / 10, end_time := (371 : ℚ) / 10 },
   { id := "health-check-2", task_type := "HEALTH_CHECK",
      predecessors := ["initialize"],
      successors := ["node-simulation"],
      upward_rank := (38999 : ℚ) / 60, scheduled_node := some "worker-w002",
      start_time := (121 : ℚ) / 10, end_time := (371 : ℚ) / 10 },
   { id := "health-check-3", task_type := "HEALTH_CHECK",
      predecessors := ["initialize"],
      successors := ["node-simulation"],
      upward_rank := (38999 : ℚ) / 60, scheduled_node := some "worker-w003",
      start_time := (27 : ℚ) / 2, end_time := (77 : ℚ) / 2 },
   { id := "node-simulation", task_type := "NODE_SIMULATION",
      predecessors := ["health-check-1", "health-check-2", "health-check-3"],
      successors := ["interim-health-check"],
      upward_rank := (18559 : ℚ) / 30, scheduled_node := some "worker-w003",
      start_time := (193 : ℚ) / 5, end_time := (943 : ℚ) / 5 },
   { id := "interim-health-check", task_type := "INTERIM_HEALTH_CHECK",
      predecessors := ["node-simulation"],
      successors := ["rack-simulation"],
      upward_rank := (6653 : ℚ) / 15, scheduled_node := none,
      start_time := (0 : ℚ) / 1, end_time := (0 : ℚ) / 1 },
   { id := "rack-simulation", task_type := "RACK_SIMULATION",
      predecessors := ["interim-health-check"],
      successors := ["final-health-check"],
      upward_rank := (2088 : ℚ) / 5, scheduled_node := none,
      start_time := (0 : ℚ) / 1, end_time := (0 : ℚ) / 1 },
   { id := "final-health-check", task_type := "FINAL_HEALTH_CHECK",
      predecessors := ["rack-simulation"],
      successors := [],
      upward_rank := (155 : ℚ) / 6, scheduled_node := none,
      start_time := (0 : ℚ) / 1, end_time := (0 : ℚ) / 1 }],
   [("initialize", "worker-w001", (0 : ℚ) / 1, (12 : ℚ) / 1),
   ("health-check-1", "worker-w001", (121 : ℚ) / 10, (371 : ℚ) / 10),
   ("health-check-2", "worker-w002", (121 : ℚ) / 10, (371 : ℚ) / 10),
   ("health-check-3", "worker-w003", (27 : ℚ) / 2, (77 : ℚ) / 2),
   ("node-simulation", "worker-w003", (193 : ℚ) / 5, (943 : ℚ) / 5)],
   [("master-m001", (0 : ℚ) / 1), ("master-m002", (0 : ℚ) / 1), ("master-m003", (0 : ℚ) / 1), ("worker-w001", (371 : ℚ) / 10), ("worker-w002", (371 : ℚ) / 10), ("worker-w003", (943 : ℚ) / 5), ("worker-w004", (0 : ℚ) / 1), ("worker-w005", (0 : ℚ) / 1), ("worker-w006", (0 : ℚ) / 1)]⟩

def schedStateLit6 : SchedState :=
  ⟨[{ id := "initialize", task_type := "INITIALIZE",
      predecessors := [],
      successors := ["health-check-1", "health-check-2", "health-check-3"],
      upward_rank := (1993 : ℚ) / 3, scheduled_node := some "worker-w001",
      start_time := (0 : ℚ) / 1, end_time := (12 : ℚ) / 1 },
   { id := "health-check-1", task_type := "HEALTH_CHECK",
      predecessors := ["initialize"],
      successors := ["node-simulation"],
      upward_rank := (38999 : ℚ) / 60, scheduled_node := some "worker-w001",
      start_time := (121 : ℚ) / 10, end_time := (371 : ℚ) / 10 },
   { id := "health-check-2", task_type := "HEALTH_CHECK",
      predecessors := ["initialize"],
      successors := ["node-simulation"],
      upward_rank := (38999 : ℚ) / 60, scheduled_node := some "worker-w002",
      start_time := (121 : ℚ) / 10, end_time := (371 : ℚ) / 10 },
   { id := "health-check-3", task_type := "HEALTH_CHECK",
      predecessors := ["initialize"],
      successors := ["node-simulation"],
      upward_rank := (38999 : ℚ) / 60, scheduled_node := some "worker-w003",
      start_time := (27 : ℚ) / 2, end_time := (77 : ℚ) / 2 },
   { id := "node-simulation", task_type := "NODE_SIMULATION",
      predecessors := ["health-check-1", "health-check-2", "health-check-3"],
      successors := ["interim-health-check"],
      upward_rank := (18559 : ℚ) / 30, scheduled_node := some "worker-w003",
      start_time := (193 : ℚ) / 5, end_time := (943 : ℚ) / 5 },
   { id := "interim-health-check", task_type := "INTERIM_HEALTH_CHECK",
      predecessors := ["node-simulation"],
      successors := ["rack-simulation"],
      upward_rank := (6653 : ℚ) / 15, scheduled_node := some "worker-w003",
      start_time := (1887 : ℚ) / 10, end_time := (2087 : ℚ) / 10 },
   { id := "rack-simulation", task_type := "RACK_SIMULATION",
      predecessors := ["interim-health-check"],
      successors := ["final-health-check"],
      upward_rank := (2088 : ℚ) / 5, scheduled_node := none,
      start_time := (0 : ℚ) / 1, end_time := (0 : ℚ) / 1 },
   { id := "final-health-check", task_type := "FINAL_HEALTH_CHECK",
      predecessors := ["rack-simulation"],
      successors := [],
      upward_rank := (155 : ℚ) / 6, scheduled_node := none,
      start_time := (0 : ℚ) / 1, end_time := (0 : ℚ) / 1 }],
   [("initialize", "worker-w001", (0 : ℚ) / 1, (12 : ℚ) / 1),
   ("health-check-1", "worker-w001", (121 : ℚ) / 10, (371 : ℚ) / 10),
   ("health-check-2", "worker-w002", (121 : ℚ) / 10, (371 : ℚ) / 10),
   ("health-check-3", "worker-w003", (27 : ℚ) / 2, (77 : ℚ) / 2),
   ("node-simulation", "worker-w003", (193 : ℚ) / 5, (943 : ℚ) / 5),
   ("interim-health-check", "worker-w003", (1887 : ℚ) / 10, (2087 : ℚ) / 10)],
   [("master-m001", (0 : ℚ) / 1), ("master-m002", (0 : ℚ) / 1), ("master-m003", (0 : ℚ) / 1), ("worker-w001", (371 : ℚ) / 10), ("worker-w002", (371 : ℚ) / 10), ("worker-w003", (2087 : ℚ) / 10), ("worker-w004", (0 : ℚ) / 1), ("worker-w005", (0 : ℚ) / 1), ("worker-w006", (0 : ℚ) / 1)]⟩

def schedStateLit7 : SchedState :=
  ⟨[{ id := "initialize", task_type := "INITIALIZE",
      predecessors := [],
      successors := ["health-check-1", "health-check-2", "health-check-3"],
      upward_rank := (1993 : ℚ) / 3, scheduled_node := some "worker-w001",
      start_time := (0 : ℚ) / 1, end_time := (12 : ℚ) / 1 },
   { id := "health-check-1", task_type := "HEALTH_CHECK",
      predecessors := ["initialize"],
      successors := ["node-simulation"],
      upward_rank := (38999 : ℚ) / 60, scheduled_node := some "worker-w001",
      start_time := (121 : ℚ) / 10, end_time := (371 : ℚ) / 10 },
   { id := "health-check-2", task_type := "HEALTH_CHECK",
      predecessors := ["initialize"],
      successors := ["node-simulation"],
      upward_rank := (38999 : ℚ) / 60, scheduled_node := some "worker-w002",
      start_time := (121 : ℚ) / 10, end_time := (371 : ℚ) / 10 },
   { id := "health-check-3", task_type := "HEALTH_CHECK",
      predecessors := ["initialize"],
      successors := ["node-simulation"],
      upward_rank := (38999 : ℚ) / 60, scheduled_node := some "worker-w003",
      start_time := (27 : ℚ) / 2, end_time := (77 : ℚ) / 2 },
   { id := "node-simulation", task_type := "NODE_SIMULATION",
      predecessors := ["health-check-1", "health-check-2", "health-check-3"],
      successors := ["interim-health-check"],
      upward_rank := (18559 : ℚ) / 30, scheduled_node := some "worker-w003",
      start_time := (193 : ℚ) / 5, end_time := (943 : ℚ) / 5 },
   { id := "interim-health-check", task_type := "INTERIM_HEALTH_CHECK",
      predecessors := ["node-simulation"],
      successors := ["rack-simulation"],
      upward_rank := (6653 : ℚ) / 15, scheduled_node := some "worker-w003",
      start_time := (1887 : ℚ) / 10, end_time := (2087 : ℚ) / 10 },
   { id := "rack-simulation", task_type := "RACK_SIMULATION",
      predecessors := ["interim-health-check"],
      successors := ["final-health-check"],
      upward_rank := (2088 : ℚ) / 5, scheduled_node := some "worker-w003",
      start_time := (1044 : ℚ) / 5, end_time := (2794 : ℚ) / 5 },
   { id := "final-health-check", task_type := "FINAL_HEALTH_CHECK",
      predecessors := ["rack-simulation"],
      successors := [],
      upward_rank := (155 : ℚ) / 6, scheduled_node := none,
      start_time := (0 : ℚ) / 1, end_time := (0 : ℚ) / 1 }],
   [("initialize", "worker-w001", (0 : ℚ) / 1, (12 : ℚ) / 1),
   ("health-check-1", "worker-w001", (121 : ℚ) / 10, (371 : ℚ) / 10),
   ("health-check-2", "worker-w002", (121 : ℚ) / 10, (371 : ℚ) / 10),
   ("health-check-3", "worker-w003", (27 : ℚ) / 2, (77 : ℚ) / 2),
   ("node-simulation", "worker-w003", (193 : ℚ) / 5, (943 : ℚ) / 5),
   ("interim-health-check", "worker-w003", (1887 : ℚ) / 10, (2087 : ℚ) / 10),
   ("rack-simulation", "worker-w003", (1044 : ℚ) / 5, (2794 : ℚ) / 5)],
   [("master-m001", (0 : ℚ) / 1), ("master-m002", (0 : ℚ) / 1), ("master-m003", (0 : ℚ) / 1), ("worker-w001", (371 : ℚ) / 10), ("worker-w002", (371 : ℚ) / 10), ("worker-w003", (2794 : ℚ) / 5), ("worker-w004", (0 : ℚ) / 1), ("worker-w005", (0 : ℚ) / 1), ("worker-w006", (0 : ℚ) / 1)]⟩

def schedStateLit8 : SchedState :=
  ⟨[{ id := "initialize", task_type := "INITIALIZE",
      predecessors := [],
      successors := ["health-check-1", "health-check-2", "health-check-3"],
      upward_rank := (1993 : ℚ) / 3, scheduled_node := some "worker-w001",
      start_time := (0 : ℚ) / 1, end_time := (12 : ℚ) / 1 },
   { id := "health-check-1", task_type := "HEALTH_CHECK",
      predecessors := ["initialize"],
      successors := ["node-simulation"],
      upward_rank := (38999 : ℚ) / 60, scheduled_node := some "worker-w001",
      start_time := (121 : ℚ) / 10, end_time := (371 : ℚ) / 10 },
   { id := "health-check-2", task_type := "HEALTH_CHECK",
      predecessors := ["initialize"],
      successors := ["node-simulation"],
      upward_rank := (38999 : ℚ) / 60, scheduled_node := some "worker-w002",
      start_time := (121 : ℚ) / 10, end_time := (371 : ℚ) / 10 },
   { id := "health-check-3", task_type := "HEALTH_CHECK",
      predecessors := ["initialize"],
      successors := ["node-simulation"],
      upward_rank := (38999 : ℚ) / 60, scheduled_node := some "worker-w003",
      start_time := (27 : ℚ) / 2, end_time := (77 : ℚ) / 2 },
   { id := "node-simulation", task_type := "NODE_SIMULATION",
      predecessors := ["health-check-1", "health-check-2", "health-check-3"],
      successors := ["interim-health-check"],
      upward_rank := (18559 : ℚ) / 30, scheduled_node := some "worker-w003",
      start_time := (193 : ℚ) / 5, end_time := (943 : ℚ) / 5 },
   { id := "interim-health-check", task_type := "INTERIM_HEALTH_CHECK",
      predecessors := ["node-simulation"],
      successors := ["rack-simulation"],
      upward_rank := (6653 : ℚ) / 15, scheduled_node := some "worker-w003",
      start_time := (1887 : ℚ) / 10, end_time := (2087 : ℚ) / 10 },
   { id := "rack-simulation", task_type := "RACK_SIMULATION",
      predecessors := ["interim-health-check"],
      successors := ["final-health-check"],
      upward_rank := (2088 : ℚ) / 5, scheduled_node := some "worker-w003",
      start_time := (1044 : ℚ) / 5, end_time := (2794 : ℚ) / 5 },
   { id := "final-health-check", task_type := "FINAL_HEALTH_CHECK",
      predecessors := ["rack-simulation"],
      successors := [],
      upward_rank := (155 : ℚ) / 6, scheduled_node := some "worker-w003",
      start_time := (5589 : ℚ) / 10, end_time := (5789 : ℚ) / 10 }],
   [("initialize", "worker-w001", (0 : ℚ) / 1, (12 : ℚ) / 1),
   ("health-check-1", "worker-w001", (121 : ℚ) / 10, (371 : ℚ) / 10),
   ("health-check-2", "worker-w002", (121 : ℚ) / 10, (371 : ℚ) / 10),
   ("health-check-3", "worker-w003", (27 : ℚ) / 2, (77 : ℚ) / 2),
   ("node-simulation", "worker-w003", (193 : ℚ) / 5, (943 : ℚ) / 5),
   ("interim-health-check", "worker-w003", (1887 : ℚ) / 10, (2087 : ℚ) / 10),
   ("rack-simulation", "worker-w003", (1044 : ℚ) / 5, (2794 : ℚ) / 5),
   ("final-health-check", "worker-w003", (5589 : ℚ) / 10, (5789 : ℚ) / 10)],
   [("master-m001", (0 : ℚ) / 1), ("master-m002", (0 : ℚ) / 1), ("master-m003", (0 : ℚ) / 1), ("worker-w001", (371 : ℚ) / 10), ("worker-w002", (371 : ℚ) / 10), ("worker-w003", (5789 : ℚ) / 10), ("worker-w004", (0 : ℚ) / 1), ("worker-w005", (0 : ℚ) / 1), ("worker-w006", (0 : ℚ) / 1)]⟩

end Heft

namespace Heft

theorem lookupA_mem {α β : Type} [DecidableEq α] {l : List (α × β)} {k : α} {v : β}
    (h : lookupA l k = some v) : (k, v) ∈ l := by
  induction l with
  | nil => simp [lookupA] at h
  | cons p t ih =>
    rw [lookupA] at h
    by_cases hp : p.1 = k
    · rw [if_pos hp] at h
      injection h with hv
      rw [← hp, ← hv]
      exact List.mem_cons_self _ _
    · rw [if_neg hp] at h
      exact List.mem_cons_of_mem _ (ih h)

theorem lookupA_updateAssoc_self {α β : Type} [DecidableEq α] (l : List (α × β)) (k : α) (v : β) :
    lookupA (updateAssoc l k v) k = some v := by
  induction l with
  | nil => simp [updateAssoc, lookupA]
  | cons p t ih =>
    rw [updateAssoc]
    by_cases hp : p.1 = k
    · rw [if_pos hp]
      simp [lookupA]
    · rw [if_neg hp, lookupA, if_neg hp]
      exact ih

theorem lookupA_updateAssoc_ne {α β : Type} [DecidableEq α] (l : List (α × β)) {k k' : α}
    (v : β) (h : k' ≠ k) : lookupA (updateAssoc l k v) k' = lookupA l k' := by
  induction l with
  | nil => simp [updateAssoc, lookupA, Ne.symm h]
  | cons p t ih =>
    rw [updateAssoc]
    by_cases hp : p.1 = k
    · have hp' : p.1 ≠ k' := by rw [hp]; exact fun hh => h hh.symm
      rw [if_pos hp, lookupA, if_neg (fun hh : k = k' => h hh.symm), lookupA, if_neg hp']
    · rw [if_neg hp, lookupA, lookupA]
      by_cases hq : p.1 = k'
      · rw [if_pos hq, if_pos hq]
      · rw [if_neg hq, if_neg hq]
        exact ih

theorem mapO_mem {α β : Type} {f : α → Option β} :
    ∀ {l : List α} {ys : List β}, mapO f l = some ys → ∀ y ∈ ys, ∃ a ∈ l, f a = some y := by
  intro l
  induction l with
  | nil =>
    intro ys h y hy
    rw [mapO] at h
    injection h with h
    rw [← h] at hy
    simp at hy
  | cons a t ih =>
    intro ys h y hy
    rw [mapO] at h
    cases hfa : f a with
    | none => rw [hfa] at h; cases h
    | some b =>
      rw [hfa] at h
      cases hmt : mapO f t with
      | none => rw [hmt] at h; cases h
      | some ys' =>
        rw [hmt] at h
        injection h with h
        rw [← h] at hy
        rcases List.mem_cons.mp hy with rfl | hmem
        · exact ⟨a, List.mem_cons_self _ _, hfa⟩
        · obtain ⟨a2, ha2, hfa2⟩ := ih hmt y hmem
          exact ⟨a2, List.mem_cons_of_mem _ ha2, hfa2⟩

theorem bestCandidate_mem : ∀ {l : List (String × ℚ × ℚ)} {c : String × ℚ × ℚ},
    bestCandidate l = some c → c ∈ l := by
  have aux : ∀ (cs : List (String × ℚ × ℚ)) (b : String × ℚ × ℚ),
      cs.foldl (fun b2 c2 => if c2.2.2 < b2.2.2 then c2 else b2) b = b ∨
        cs.foldl (fun b2 c2 => if c2.2.2 < b2.2.2 then c2 else b2) b ∈ cs := by
    intro cs
    induction cs with
    | nil => intro b; exact Or.inl rfl
    | cons x xs ih =>
      intro b
      rw [List.foldl_cons]
      rcases ih (if x.2.2 < b.2.2 then x else b) with h | h
      · rw [h]
        by_cases hx : x.2.2 < b.2.2
        · rw [if_pos hx]; exact Or.inr (List.mem_cons_self _ _)
        · rw [if_neg hx]; exact Or.inl rfl
      · exact Or.inr (List.mem_cons_of_mem _ h)
  intro l c h
  cases l with
  | nil => cases h
  | cons c0 cs =>
    rw [bestCandidate] at h
    injection h with h
    rcases aux cs c0 with h2 | h2
    · rw [← h, h2]; exact List.mem_cons_self _ _
    · rw [← h]; exact List.mem_cons_of_mem _ h2

theorem exec_cost_nonneg {ec : ExecCosts} (hec : execCostsNonneg ec) {tt n : String} {c : ℚ}
    (h : get_exec_cost ec tt n = some c) : 0 ≤ c := by
  unfold get_exec_cost at h
  cases hinfo : lookupA NODES n with
  | none => simp [hinfo] at h
  | some info =>
    simp only [hinfo] at h
    cases hbc : lookupA ((lookupA ec tt).getD defaultCostPair) info.type with
    | none => simp [hbc] at h
    | some q =>
      simp only [hbc] at h
      injection h with h
      have hq : 0 ≤ q := by
        cases hbase : lookupA ec tt with
        | none =>
          rw [hbase] at hbc
          have hdef : ∀ r ∈ defaultCostPair, 0 ≤ r.2 := by
            intro r hr
            fin_cases hr <;> norm_num
          exact hdef _ (lookupA_mem hbc)
        | some pair =>
          rw [hbase] at hbc
          exact hec _ (lookupA_mem hbase) _ (lookupA_mem hbc)
      have hcap : 0 ≤ info.capacity := by
        have hnodes : ∀ p ∈ NODES, 0 ≤ p.2.capacity := by
          intro p hp
          fin_cases hp <;> norm_num
        exact hnodes _ (lookupA_mem hinfo)
      rw [← h]
      exact div_nonneg hq hcap

theorem eft_some {ec : ExecCosts} {cc : CommCosts} {tasks : List Task}
    {avail : List (String × ℚ)} {task : Task} {node : String} {p : ℚ × ℚ}
    (h : get_earliest_finish_time ec cc tasks avail task node = some p) :
    ∃ nr pr ex, lookupA avail node = some nr ∧
      predReadyLoop cc tasks node task.predecessors 0 = some pr ∧
      get_exec_cost ec task.task_type node = some ex ∧
      p.1 = max nr pr ∧ p.2 = p.1 + ex := by
  unfold get_earliest_finish_time at h
  cases h1 : lookupA avail node with
  | none => rw [h1] at h; cases h
  | some nr =>
    rw [h1] at h
    cases h2 : predReadyLoop cc tasks node task.predecessors 0 with
    | none => rw [h2] at h; cases h
    | some pr =>
      rw [h2] at h
      cases h3 : get_exec_cost ec task.task_type node with
      | none => rw [h3] at h; cases h
      | some ex =>
        rw [h3] at h
        injection h with h
        exact ⟨nr, pr, ex, rfl, rfl, rfl, by rw [← h], by rw [← h]⟩

end Heft

namespace Heft

theorem predReadyLoop_all_unscheduled (cc : CommCosts) (tasks : List Task) (node : String) :
    ∀ (l : List String) (acc : ℚ),
      (∀ pid ∈ l, ∃ pt, findTask tasks pid = some pt ∧ pt.scheduled_node = none) →
      predReadyLoop cc tasks node l acc = some acc := by
  intro l
  induction l with
  | nil => intro acc _; rfl
  | cons pid rest ih =>
    intro acc h
    obtain ⟨pt, hf, hn⟩ := h pid (List.mem_cons_self _ _)
    simp only [predReadyLoop, hf, hn]
    exact ih acc (fun pid2 hm => h pid2 (List.mem_cons_of_mem _ hm))

/-- Claim C8 (amended): when computing a task's ready time, a
predecessor that has not been scheduled is silently skipped — it
contributes nothing to `pred_ready` — and `get_earliest_finish_time`
returns a normal start/finish pair instead of signalling an error. -/
theorem eft_skips_unscheduled_predecessors (ec : ExecCosts) (cc : CommCosts)
    (tasks : List Task) (avail : List (String × ℚ)) (task : Task) (node : String)
    (h : ∀ pid ∈ task.predecessors, ∃ pt, findTask tasks pid = some pt ∧ pt.scheduled_node = none) :
    get_earliest_finish_time ec cc tasks avail task node =
      eftNoPredValue ec avail task.task_type node := by
  have hpr := predReadyLoop_all_unscheduled cc tasks node task.predecessors 0 h
  unfold get_earliest_finish_time eftNoPredValue
  cases h1 : lookupA avail node with
  | none => rfl
  | some nr =>
    rw [hpr]
    cases h3 : get_exec_cost ec task.task_type node with
    | none => rfl
    | some ex => rfl

/-- Claim C5: one `schedule_task` call never decreases any node's
availability (provided every execution cost in the table is
non-negative; the chosen node's availability rises to the task's finish
time, all others stay put). -/
theorem schedule_task_availability_monotone (ec : ExecCosts) (cc : CommCosts)
    (s : SchedState) (task_id n : String) (hec : execCostsNonneg ec) :
    availD s n ≤ availD ((schedule_task ec cc s task_id).getD s) n := by
  cases hs : schedule_task ec cc s task_id with
  | none => exact le_refl _
  | some s2 =>
    rw [Option.getD_some]
    unfold schedule_task at hs
    cases h1 : findTask s.tasks task_id with
    | none => simp [h1] at hs
    | some task =>
      simp only [h1] at hs
      cases h2 : mapO (fun nd =>
          (get_earliest_finish_time ec cc s.tasks s.node_availability task nd).map
            (fun p => (nd, p.1, p.2))) nodeIds with
      | none => simp [h2] at hs
      | some cands =>
        simp only [h2] at hs
        cases h3 : bestCandidate cands with
        | none => simp [h3] at hs
        | some best =>
          simp only [h3, Option.some.injEq] at hs
          obtain ⟨nid, hnid, hfn⟩ := mapO_mem h2 best (bestCandidate_mem h3)
          cases h4 : get_earliest_finish_time ec cc s.tasks s.node_availability task nid with
          | none => rw [h4] at hfn; cases hfn
          | some p =>
            rw [h4] at hfn
            rw [show Option.map (fun p => ((nid : String), p.1, p.2)) (some p) =
              some (nid, p.1, p.2) from rfl] at hfn
            injection hfn with hfn
            obtain ⟨nr, pr, ex, ha, hp, hx, hst, hen⟩ := eft_some h4
            have hx0 : 0 ≤ ex := exec_cost_nonneg hec hx
            have hb1 : nid = best.1 := congrArg Prod.fst hfn
            have hnr : nr ≤ best.2.2 := by
              rw [← hfn]
              show nr ≤ p.2
              rw [hen, hst]
              exact le_trans (le_max_left _ _) (le_add_of_nonneg_right hx0)
            subst hs
            unfold availD
            show (lookupA s.node_availability n).getD 0 ≤
              (lookupA (updateAssoc s.node_availability best.1 best.2.2) n).getD 0
            by_cases hbn : n = best.1
            · rw [hbn, lookupA_updateAssoc_self, ← hb1, ha]
              simpa using hnr
            · rw [lookupA_updateAssoc_ne _ _ hbn]

end Heft

namespace Heft

theorem cyclicRankStepA (g : String → Memo → Option (ℚ × Memo)) (hg : g "B" [] = none) :
    rankBody cyclicTasks DEFAULT_EXEC_COSTS COMM_COSTS g "A" [] = none := by
  have h1 : rankSuccs COMM_COSTS g ["B"] 0 [] = none := by
    simp only [rankSuccs, hg]
  have h2 : rankBody cyclicTasks DEFAULT_EXEC_COSTS COMM_COSTS g "A" [] =
      rankWrap "A" ((avg_exec_cost DEFAULT_EXEC_COSTS "HEALTH_CHECK").getD 0)
        (rankSuccs COMM_COSTS g ["B"] 0 []) := by
    rfl
  rw [h2, h1]
  rfl

theorem cyclicRankStepB (g : String → Memo → Option (ℚ × Memo)) (hg : g "A" [] = none) :
    rankBody cyclicTasks DEFAULT_EXEC_COSTS COMM_COSTS g "B" [] = none := by
  have h1 : rankSuccs COMM_COSTS g ["A"] 0 [] = none := by
    simp only [rankSuccs, hg]
  have h2 : rankBody cyclicTasks DEFAULT_EXEC_COSTS COMM_COSTS g "B" [] =
      rankWrap "B" ((avg_exec_cost DEFAULT_EXEC_COSTS "HEALTH_CHECK").getD 0)
        (rankSuccs COMM_COSTS g ["A"] 0 []) := by
    rfl
  rw [h2, h1]
  rfl

/-- Claim C2 (amended): the scheduler performs no cycle validation and
knows no `CycleDetected` error; on the cyclic graph `A → B → A` the
upward-rank recursion of `compute_upward_rank` fails to complete at
*every* recursion-depth budget (the memo is only written after the
recursive calls return, so the memo check can never stop the cycle —
the Python recursion is unbounded). -/
theorem cyclic_rank_never_completes (fuel : Nat) :
    compute_upward_rank cyclicTasks DEFAULT_EXEC_COSTS COMM_COSTS fuel "A" [] = none ∧
    compute_upward_rank cyclicTasks DEFAULT_EXEC_COSTS COMM_COSTS fuel "B" [] = none := by
  induction fuel with
  | zero => exact ⟨rfl, rfl⟩
  | succ n ih => exact ⟨cyclicRankStepA _ ih.2, cyclicRankStepB _ ih.1⟩

/-- Claim C2 (counterexample): on the cyclic graph the pipeline reaches
the rank computation — there is no prior validation step — and produces
no `CycleDetected` error and no schedule at all. -/
theorem cyclic_run_yields_no_schedule :
    run_heft_on cyclicTasks DEFAULT_EXEC_COSTS COMM_COSTS = none ∧
    compute_all_ranks DEFAULT_EXEC_COSTS COMM_COSTS cyclicTasks = none :=
  ⟨by rfl, by rfl⟩

theorem ranks_eval : compute_all_ranks DEFAULT_EXEC_COSTS COMM_COSTS define_dag =
    some rankMemoLit := by
  rfl

theorem sort_eval : sortByRankDesc (setRanks define_dag rankMemoLit) = sortedTasksLit := by
  rfl

theorem state0_eval :
    (⟨setRanks define_dag rankMemoLit, [], initAvail⟩ : SchedState) = schedStateLit0 := by
  rfl

theorem sched_step1 : schedule_task DEFAULT_EXEC_COSTS COMM_COSTS schedStateLit0
    "initialize" = some schedStateLit1 := by
  rfl

theorem sched_step2 : schedule_task DEFAULT_EXEC_COSTS COMM_COSTS schedStateLit1
    "health-check-1" = some schedStateLit2 := by
  rfl

theorem sched_step3 : schedule_task DEFAULT_EXEC_COSTS COMM_COSTS schedStateLit2
    "health-check-2" = some schedStateLit3 := by
  rfl

theorem sched_step4 : schedule_task DEFAULT_EXEC_COSTS COMM_COSTS schedStateLit3
    "health-check-3" = some schedStateLit4 := by
  rfl

theorem sched_step5 : schedule_task DEFAULT_EXEC_COSTS COMM_COSTS schedStateLit4
    "node-simulation" = some schedStateLit5 := by
  rfl

theorem sched_step6 : schedule_task DEFAULT_EXEC_COSTS COMM_COSTS schedStateLit5
    "interim-health-check" = some schedStateLit6 := by
  rfl

theorem sched_step7 : schedule_task DEFAULT_EXEC_COSTS COMM_COSTS schedStateLit6
    "rack-simulation" = some schedStateLit7 := by
  rfl

theorem sched_step8 : schedule_task DEFAULT_EXEC_COSTS COMM_COSTS schedStateLit7
    "final-health-check" = some schedStateLit8 := by
  rfl

theorem run_heft_eval : run_heft DEFAULT_EXEC_COSTS COMM_COSTS = some schedStateLit8 := by
  unfold run_heft run_heft_on
  rw [ranks_eval]
  show schedLoop DEFAULT_EXEC_COSTS COMM_COSTS
      (sortByRankDesc (setRanks define_dag rankMemoLit))
      ⟨setRanks define_dag rankMemoLit, [], initAvail⟩ = some schedStateLit8
  rw [sort_eval, state0_eval]
  simp only [schedLoop, sched_step1, sched_step2, sched_step3, sched_step4, sched_step5,
    sched_step6, sched_step7, sched_step8]

theorem run_states_eval : run_heft_states DEFAULT_EXEC_COSTS COMM_COSTS =
    some [schedStateLit1, schedStateLit2, schedStateLit3, schedStateLit4, schedStateLit5,
      schedStateLit6, schedStateLit7, schedStateLit8] := by
  unfold run_heft_states
  rw [ranks_eval]
  show schedTrace DEFAULT_EXEC_COSTS COMM_COSTS
      (sortByRankDesc (setRanks define_dag rankMemoLit))
      ⟨setRanks define_dag rankMemoLit, [], initAvail⟩ =
    some [schedStateLit1, schedStateLit2, schedStateLit3, schedStateLit4, schedStateLit5,
      schedStateLit6, schedStateLit7, schedStateLit8]
  rw [sort_eval, state0_eval]
  simp only [schedTrace, sched_step1, sched_step2, sched_step3, sched_step4, sched_step5,
    sched_step6, sched_step7, sched_step8, Option.map_some']

/-- Claim C1: in the schedule computed by `run_heft` with the module's
default cost tables, every DAG edge `u → v` satisfies
`end(u) + comm(node(u), node(v)) ≤ start(v)`. -/
theorem heft_precedence_preserved : runCheck precedenceCheck = true := by
  unfold runCheck
  rw [run_heft_eval]
  rfl

/-- Claim C3 (counterexample): at the task `rack-simulation` of the
default run, the computed upward rank does *not* satisfy the spec's
recurrence with the communication cost averaged over all ordered node
pairs (the code's average `0.1` differs from the all-pairs average
`103/90`). -/
theorem rank_spec_comm_average_cex : c3SpecCheckAt "rack-simulation" = false := by
  unfold c3SpecCheckAt
  rw [ranks_eval]
  rfl

/-- Claim C3 (amended): for every task of the default run with at least
one successor, `rank(t) = avgExecCost(t) + max over s of (avgComm +
rank(s))` where `avgComm` is the communication cost averaged over the
*same-node* pairs `(n, n)` only — the diagonal of the zone table, not
all ordered pairs. -/
theorem rank_uses_same_node_comm_average :
    ∀ tid ∈ define_dag.map (fun t => t.id), c3CodeCheckAt tid = true := by
  intro tid h
  have hids : define_dag.map (fun t => t.id) =
      ["initialize", "health-check-1", "health-check-2", "health-check-3",
       "node-simulation", "interim-health-check", "rack-simulation",
       "final-health-check"] := rfl
  rw [hids] at h
  unfold c3CodeCheckAt
  rw [ranks_eval]
  fin_cases h <;> rfl

theorem rank_uses_same_node_comm_average_witness :
    "rack-simulation" ∈ define_dag.map (fun t => t.id) ∧
    c3CodeCheckAt "rack-simulation" = true :=
  ⟨of_decide_eq_true (by rfl),
   rank_uses_same_node_comm_average "rack-simulation"
     (of_decide_eq_true (by rfl))⟩

/-- Claim C4: the scheduler is a pure function of its cost tables —
running it twice on equal inputs yields equal schedules (the embedding
of the run is deterministic by construction: no randomness, no
unordered iteration, no I/O). -/
theorem run_heft_deterministic (ec1 ec2 : ExecCosts) (cc1 cc2 : CommCosts)
    (h1 : ec1 = ec2) (h2 : cc1 = cc2) : run_heft ec1 cc1 = run_heft ec2 cc2 := by
  rw [h1, h2]

theorem run_heft_deterministic_witness :
    run_heft DEFAULT_EXEC_COSTS COMM_COSTS = run_heft DEFAULT_EXEC_COSTS COMM_COSTS :=
  run_heft_deterministic DEFAULT_EXEC_COSTS DEFAULT_EXEC_COSTS COMM_COSTS COMM_COSTS rfl rfl

theorem default_exec_costs_nonneg : execCostsNonneg DEFAULT_EXEC_COSTS := by
  intro p hp q hq
  simp only [DEFAULT_EXEC_COSTS, List.mem_cons, List.not_mem_nil, or_false] at hp
  rcases hp with rfl | rfl | rfl | rfl | rfl | rfl <;>
    simp only [List.mem_cons, List.not_mem_nil, or_false] at hq <;>
      rcases hq with rfl | rfl <;> norm_num

theorem schedule_task_availability_monotone_witness :
    execCostsNonneg DEFAULT_EXEC_COSTS ∧
    availD initState "worker-w001" ≤
      availD ((schedule_task DEFAULT_EXEC_COSTS COMM_COSTS initState "initialize").getD initState)
        "worker-w001" :=
  ⟨default_exec_costs_nonneg,
   schedule_task_availability_monotone DEFAULT_EXEC_COSTS COMM_COSTS initState "initialize"
     "worker-w001" default_exec_costs_nonneg⟩

/-- Claim C6 (counterexample): `HEALTH_CHECK` has a master cost (`35`)
before the feed is loaded, yet loading a feed with mean `50` for
`HEALTH_CHECK_1` rewrites the master cost to `60 = 50 × 1.2` — the
already-present master cost is *not* left unchanged. -/
theorem load_benchmark_overwrites_master_cex :
    masterCostOf DEFAULT_EXEC_COSTS "HEALTH_CHECK" = some 35 ∧
    masterCostOf (load_benchmark_data DEFAULT_EXEC_COSTS [("gke", [("HEALTH_CHECK_1", 50)])])
        "HEALTH_CHECK" = some 60 ∧
    masterCostOf (load_benchmark_data DEFAULT_EXEC_COSTS [("gke", [("HEALTH_CHECK_1", 50)])])
        "HEALTH_CHECK" ≠ masterCostOf DEFAULT_EXEC_COSTS "HEALTH_CHECK" := by
  refine ⟨by rfl, by rfl, ?_⟩
  intro hcontra
  rw [show masterCostOf (load_benchmark_data DEFAULT_EXEC_COSTS
        [("gke", [("HEALTH_CHECK_1", 50)])]) "HEALTH_CHECK" = some 60 from by
      rfl,
    show masterCostOf DEFAULT_EXEC_COSTS "HEALTH_CHECK" = some 35 from by
      rfl] at hcontra
  injection hcontra with hcontra
  norm_num at hcontra

/-- Claim C6 (amended): for a feed entry with a truthy mean whose step
normalizes to a task type present in the table, the worker cost becomes
the mean and the master cost becomes `mean * 1.2` *unconditionally* —
also when a master cost was already present. -/
theorem load_benchmark_sets_master_unconditionally (ec : ExecCosts) (platform step : String)
    (mean : ℚ) (pair : List (String × ℚ)) (hm : mean ≠ 0)
    (hp : lookupA ec (normalize_task_type step) = some pair) :
    workerCostOf (load_benchmark_data ec [(platform, [(step, mean)])])
        (normalize_task_type step) = some mean ∧
    masterCostOf (load_benchmark_data ec [(platform, [(step, mean)])])
        (normalize_task_type step) = some (mean * 1.2) := by
  have h1 : load_benchmark_data ec [(platform, [(step, mean)])] =
      updateAssoc ec (normalize_task_type step)
        (updateAssoc (updateAssoc pair "worker" mean) "master" (mean * 1.2)) := by
    show applyStepStat ec step mean = _
    unfold applyStepStat
    rw [if_pos hm, hp]
  rw [h1]
  constructor
  · unfold workerCostOf
    rw [lookupA_updateAssoc_self]
    show lookupA (updateAssoc (updateAssoc pair "worker" mean) "master" (mean * 1.2))
      "worker" = some mean
    rw [lookupA_updateAssoc_ne _ _ (by decide : ("worker" : String) ≠ "master"),
      lookupA_updateAssoc_self]
  · unfold masterCostOf
    rw [lookupA_updateAssoc_self]
    show lookupA (updateAssoc (updateAssoc pair "worker" mean) "master" (mean * 1.2))
      "master" = some (mean * 1.2)
    rw [lookupA_updateAssoc_self]

theorem load_benchmark_sets_master_unconditionally_witness :
    workerCostOf (load_benchmark_data DEFAULT_EXEC_COSTS
        [("gke", [("HEALTH_CHECK_1", (50 : ℚ))])]) (normalize_task_type "HEALTH_CHECK_1") =
      some 50 ∧
    masterCostOf (load_benchmark_data DEFAULT_EXEC_COSTS
        [("gke", [("HEALTH_CHECK_1", (50 : ℚ))])]) (normalize_task_type "HEALTH_CHECK_1") =
      some (50 * 1.2) :=
  load_benchmark_sets_master_unconditionally DEFAULT_EXEC_COSTS "gke" "HEALTH_CHECK_1" 50
    [("master", 35), ("worker", 25)] (by norm_num) (by rfl)

/-- Claim C7: in the default run every task's upward rank is at least
its average execution cost, and for every task without successors the
rank equals the average execution cost exactly. -/
theorem rank_lower_bound_and_sink_exact :
    ∀ tid ∈ define_dag.map (fun t => t.id), rankCheckAt tid = true := by
  intro tid h
  have hids : define_dag.map (fun t => t.id) =
      ["initialize", "health-check-1", "health-check-2", "health-check-3",
       "node-simulation", "interim-health-check", "rack-simulation",
       "final-health-check"] := rfl
  rw [hids] at h
  unfold rankCheckAt
  rw [ranks_eval]
  fin_cases h <;> rfl

theorem rank_lower_bound_and_sink_exact_witness :
    "final-health-check" ∈ define_dag.map (fun t => t.id) ∧
    rankCheckAt "final-health-check" = true :=
  ⟨of_decide_eq_true (by rfl),
   rank_lower_bound_and_sink_exact "final-health-check"
     (of_decide_eq_true (by rfl))⟩

/-- Claim C8 (counterexample): with the unscheduled predecessor `u`,
`get_earliest_finish_time` for `v` returns the normal pair `(0, 25)` —
no error is signalled and the start time ignores `u` entirely; once `u`
is scheduled (zone `R2`, finishing at `100`), the very same call returns
`(101.5, 126.5)`. -/
theorem eft_unscheduled_pred_no_error_cex :
    get_earliest_finish_time DEFAULT_EXEC_COSTS COMM_COSTS c8Tasks initAvail c8TaskV
      "worker-w001" = some (0, 25) ∧
    get_earliest_finish_time DEFAULT_EXEC_COSTS COMM_COSTS c8TasksScheduled initAvail c8TaskV
      "worker-w001" = some (101.5, 126.5) :=
  ⟨by rfl, by rfl⟩

theorem eft_skips_unscheduled_predecessors_witness :
    get_earliest_finish_time DEFAULT_EXEC_COSTS COMM_COSTS c8Tasks initAvail c8TaskV
      "worker-w002" = eftNoPredValue DEFAULT_EXEC_COSTS initAvail c8TaskV.task_type
      "worker-w002" :=
  eft_skips_unscheduled_predecessors DEFAULT_EXEC_COSTS COMM_COSTS c8Tasks initAvail c8TaskV
    "worker-w002" (by
      intro pid hm
      have h2 : c8TaskV.predecessors = ["u"] := rfl
      rw [h2] at hm
      have hp : pid = "u" := List.mem_singleton.mp hm
      subst hp
      exact ⟨_, rfl, rfl⟩)

/-- Claim C9: whenever `task_id` is `None` or names no schedule entry,
`get_exclusion_info` falls through to the whole-schedule summary (the
union of all assigned nodes and of their zones) — never an error, an
empty record, or a per-task record. -/
theorem get_exclusion_info_fallback (s : SchedState) (task_id : Option String)
    (h : task_id = none ∨ ∃ tid, task_id = some tid ∧ lookupA s.schedule tid = none) :
    get_exclusion_info s task_id = exclusion_summary s := by
  rcases h with rfl | ⟨tid, rfl, hl⟩
  · rfl
  · by_cases ht : tid = ""
    · subst ht
      rfl
    · have h2 : get_exclusion_info s (some tid) =
          if tid ≠ "" then
            match lookupA s.schedule tid with
            | some e => (lookupA NODES e.1).map (fun info => ExclusionInfo.perTask e.1 info.zone)
            | none => exclusion_summary s
          else exclusion_summary s := by
        rfl
      rw [h2, if_pos ht, hl]

theorem get_exclusion_info_fallback_witness :
    get_exclusion_info c9State (some "absent") = exclusion_summary c9State :=
  get_exclusion_info_fallback c9State (some "absent") (Or.inr ⟨"absent", rfl, rfl⟩)

/-- Claim C10: after every `schedule_task` call of the default run, the
schedule mapping and the task objects agree entry by entry — same node,
same start, same end — the assigned node is in the fleet, and
`start ≤ end`. -/
theorem schedule_and_tasks_consistent : traceCheck consistentB = true := by
  unfold traceCheck
  rw [run_states_eval]
  simp only [List.all_cons, List.all_nil, Bool.and_true, Bool.and_eq_true]
  exact ⟨by rfl, by rfl, by rfl,
    by rfl, by rfl, by rfl,
    by rfl, by rfl⟩

end Heft
